import Mathlib

/-!
Verification development for the answer-sheet evaluation system
(client in `client/services/api.ts`, `client/components/ProcessingDashboard.tsx`,
backend behaviour documented in the repository README).

The definitions below are shallow embeddings of the TypeScript source:
JS objects become structures, `Map<string, T>` becomes an association list,
optional / falsy-fallback (`a || b`) logic becomes explicit `Option` handling
mirroring JS truthiness (where `undefined`, `""` and `0` are falsy).
-/

namespace AnswerSheet

/-! ## ProcessingDashboard.tsx : types

`ProcessingUpdate.status` in the source is `'processing' | 'completed' | 'failed'`;
`ScriptProcessingState.status` additionally allows `'pending'`. -/

inductive UpdStatus
  | processing | completed | failed
deriving DecidableEq, Repr

inductive ScrStatus
  | processing | completed | failed | pending
deriving DecidableEq, Repr

def UpdStatus.toScr : UpdStatus → ScrStatus
  | .processing => .processing
  | .completed => .completed
  | .failed => .failed

/-- A JS `Record<string, any>` restricted to the string entries the dashboard
reads (`script_name`, `student_name`, ...): an association list. -/
abbrev JsRecord := List (String × String)

/-- Property read `r.k` on a JS record (first binding wins, as JS keys are unique). -/
def recGet (r : JsRecord) (k : String) : Option String :=
  (r.find? (fun p => p.1 = k)).map (fun p => p.2)

/-- JS object spread `\x7b ...a, ...b \x7d`: the keys of `b` override those of `a`.
Represented so that `recGet` agrees with JS property lookup on the result. -/
def recMerge (a b : JsRecord) : JsRecord :=
  a.filter (fun p => (b.find? (fun q => q.1 = p.1)).isNone) ++ b

/-- JS `a || b` on string-valued expressions: `undefined` (`none`) and the
empty string are falsy and fall through to `b`. -/
def jsOrStr (a b : Option String) : Option String :=
  match a with
  | some s => if s = "" then b else some s
  | none => b

/-- JS `a || b` on number-valued expressions: `undefined` (`none`) and `0` are
falsy and fall through to `b`. -/
def jsOrNum (a : Option Int) (b : Int) : Int :=
  match a with
  | some n => if n = 0 then b else n
  | none => b

/-- `interface ProcessingUpdate` of ProcessingDashboard.tsx. -/
structure ProcessingUpdate where
  script_id : String
  status : UpdStatus
  stage : String
  progress : Int
  stage_description : String
  estimated_remaining_time : Int
  details : Option JsRecord
  result : Option JsRecord
  error : Option String
  timestamp : Int
deriving DecidableEq, Repr

/-- `interface ScriptProcessingState` of ProcessingDashboard.tsx. -/
structure ScriptProcessingState where
  script_id : String
  script_name : String
  student_name : String
  current_stage : String
  progress : Int
  status : ScrStatus
  stage_description : String
  estimated_remaining_time : Int
  details : JsRecord
  result : Option JsRecord
  error : Option String
  started_at : Int
  completed_at : Option Int
deriving DecidableEq, Repr

/-- The `updatedState` object literal built inside `updateScriptProcessing`
(ProcessingDashboard.tsx lines 194-208), for a given existing entry
(`newMap.get(update.script_id)`) and incoming update. -/
def updatedState (existing : Option ScriptProcessingState) (u : ProcessingUpdate) :
    ScriptProcessingState :=
  { script_id := u.script_id
    script_name :=
      (jsOrStr (u.details.bind (fun d => recGet d "script_name"))
        (jsOrStr (existing.map (fun e => e.script_name)) (some "Unknown"))).getD "Unknown"
    student_name :=
      (jsOrStr (u.details.bind (fun d => recGet d "student_name"))
        (jsOrStr (existing.map (fun e => e.student_name)) (some "Unknown"))).getD "Unknown"
    current_stage := u.stage
    progress := u.progress
    status := u.status.toScr
    stage_description := u.stage_description
    estimated_remaining_time := u.estimated_remaining_time
    details := recMerge ((existing.map (fun e => e.details)).getD []) (u.details.getD [])
    result := u.result
    error := u.error
    started_at := jsOrNum (existing.map (fun e => e.started_at)) u.timestamp
    completed_at :=
      if u.status = .completed then some u.timestamp else existing.bind (fun e => e.completed_at) }

/-- The dashboard's `processingScripts : Map<string, ScriptProcessingState>`,
as an insertion-ordered association list. -/
abbrev ScriptMap := List (String × ScriptProcessingState)

/-- JS `Map.get`. -/
def mapGet : ScriptMap → String → Option ScriptProcessingState
  | [], _ => none
  | (k, v) :: rest, key => if k = key then some v else mapGet rest key

/-- JS `Map.set`: overwrites in place, appends when the key is new. -/
def mapSet : ScriptMap → String → ScriptProcessingState → ScriptMap
  | [], key, v => [(key, v)]
  | (k, w) :: rest, key, v =>
      if k = key then (key, v) :: rest else (k, w) :: mapSet rest key v

/-- `updateScriptProcessing` (ProcessingDashboard.tsx lines 189-219): the state
transition applied to `processingScripts` for each incoming `script_update`.
There is no timestamp comparison, no terminal-status guard and no progress
comparison: the entry is unconditionally rebuilt from the update. -/
def updateScriptProcessing (m : ScriptMap) (u : ProcessingUpdate) : ScriptMap :=
  mapSet m u.script_id (updatedState (mapGet m u.script_id) u)

/-! ## ProcessingDashboard.tsx : WebSocket lifecycle

The dashboard's outgoing protocol messages. The component only ever sends
`subscribe_session` (in `ws.onopen`) and `subscribe_script` (in
`subscribeToScript`); no other request — in particular no snapshot pull —
exists in the component. -/

inductive WsMsg
  | subscribeSession (session_id : String)
  | subscribeScript (script_id : String)
deriving DecidableEq, Repr

/-- The messages `ws.onopen` sends on a (re)connected socket
(ProcessingDashboard.tsx lines 132-144): `subscribe_session` when the
`sessionId` prop is set, nothing otherwise. -/
def onopenMessages (sessionId : Option String) : List WsMsg :=
  match sessionId with
  | some sid => [WsMsg.subscribeSession sid]
  | none => []

/-- The subscriptions an observer instance holds before a disconnect: the
session-scope subscription issued in `ws.onopen` and the script-scope
subscriptions issued through `subscribeToScript`. -/
structure ObserverSubs where
  sessionSub : Option String
  scriptSubs : List String
deriving DecidableEq, Repr

/-- The messages sent when the socket reopens after a connection loss: the
reconnect path is `ws.onclose → setTimeout(connectWebSocket, 3000)`, and the
fresh socket's `onopen` consults only the `sessionId` prop — the component
keeps no record of script-scope subscriptions and issues no snapshot pull. -/
def reconnectMessages (subs : ObserverSubs) : List WsMsg :=
  onopenMessages subs.sessionSub

/-- Connection-lifecycle state of one dashboard instance: whether the
component is mounted, the `isConnected` flag, how many WebSocket objects it
has created and not closed, and the delays (ms) of pending
`setTimeout(connectWebSocket, _)` reconnect timers. -/
structure DashConn where
  mounted : Bool
  isConnected : Bool
  openSockets : Nat
  reconnectTimers : List Nat
deriving DecidableEq, Repr

/-- `connectWebSocket` (lines 127-173): creates a new WebSocket object,
unconditionally — there is no check that the component is still mounted nor
that another socket is already open. -/
def connectWebSocket (s : DashConn) : DashConn :=
  { s with openSockets := s.openSockets + 1 }

/-- The reconnect delay hard-coded in `ws.onclose` (line 160). -/
def reconnectDelayMs : Nat := 3000

/-- `ws.onclose` (lines 155-161): sets `isConnected` to false and schedules
`connectWebSocket` after 3000 ms. Scheduling is unconditional: the handler
never consults whether the component is still mounted. -/
def oncloseHandler (s : DashConn) : DashConn :=
  { s with
    isConnected := false
    openSockets := s.openSockets - 1
    reconnectTimers := s.reconnectTimers ++ [reconnectDelayMs] }

/-- The `useEffect` cleanup (lines 258-262): runs on unmount and closes the
current socket. It clears no reconnect timer (there is no `clearTimeout`
anywhere in the component). -/
def effectCleanup (s : DashConn) : DashConn :=
  { s with mounted := false }

/-- A pending reconnect timer fires: `connectWebSocket` runs, with no guard
on the component being mounted. -/
def timerFire (s : DashConn) : DashConn :=
  match s.reconnectTimers with
  | [] => s
  | _ :: rest => connectWebSocket { s with reconnectTimers := rest }

/-! ## api.ts : file validation -/

/-- A selected browser `File`: name, MIME type, size in bytes. -/
structure UploadFile where
  name : String
  mimeType : String
  size : Nat
deriving DecidableEq, Repr

/-- The validation predicate inside `handleFileSelect` (api.ts lines
1222-1242): reject non-`image/*` MIME types, then reject files larger than
10 MB, keep the rest. -/
def uploadFileValid (f : UploadFile) : Bool :=
  if ¬ (f.mimeType.startsWith "image/") then false
  else if f.size > 10 * 1024 * 1024 then false
  else true

/-- `handleFileSelect` (api.ts lines 1216-1245): `none` (a null `FileList`)
leaves the selection untouched; otherwise the selection becomes the filtered
batch. Each file is judged independently, so one rejection never discards a
sibling. -/
def handleFileSelect (files : Option (List UploadFile)) : Option (List UploadFile) :=
  match files with
  | none => none
  | some fs => some (fs.filter uploadFileValid)

/-! ## api.ts : response handling and token storage -/

/-- The error payload `handleResponse` reads off a non-ok response:
`\x7b detail?, message? \x7d` from `response.json()`. `none` models a body that
fails to parse (the `.catch` branch). -/
structure ErrBody where
  detail : Option String
  message : Option String
deriving DecidableEq, Repr

/-- An HTTP response as `handleResponse` consumes it. `ok` is the fetch
`Response.ok` flag: status in [200, 300). `errorBody` is what `response.json()`
yields on the error path; `body` abstracts the parsed success payload. -/
structure HttpResponse where
  status : Nat
  errorBody : Option ErrBody
  body : String
deriving DecidableEq, Repr

/-- Fetch's `Response.ok`: true exactly when the status is in [200, 300). -/
def HttpResponse.ok (r : HttpResponse) : Bool :=
  200 ≤ r.status && r.status < 300

/-- `ApiClient.handleResponse` (api.ts lines 186-199) together with the
`TokenManager` effect it performs. The token store (`localStorage`) is
threaded explicitly: the result is the token store after the call and either
the parsed body or the thrown error message.
* not ok, status 401: `TokenManager.removeToken()` then throw.
* not ok otherwise: `response.json().catch(() => (\x7b message: 'Network error' \x7d))`,
  throw `errorData.detail || errorData.message || 'API request failed'`.
* ok: return the parsed body, token untouched. -/
def handleResponse (token : Option String) (r : HttpResponse) :
    Option String × Except String String :=
  if r.ok = false then
    if r.status = 401 then
      (none, Except.error "Authentication failed. Please login again.")
    else
      let errorData := r.errorBody.getD { detail := none, message := some "Network error" }
      (token,
        Except.error
          ((jsOrStr errorData.detail
            (jsOrStr errorData.message (some "API request failed"))).getD "API request failed"))
  else
    (token, Except.ok r.body)

/-! ## Backend components modelled from the spec

The triage engine, dispatch scheduler and review-resolution endpoint live in
the backend, which this repository snapshot does not contain under `client/`;
only their callers (`scriptsApi.uploadBatch`, `evaluationsApi.submitManualReview`)
and the README's documentation of the thresholds and processing modes are
present. They are therefore modelled from the spec's contracts. -/

/-- Status of a manual-review entry. -/
inductive ReviewStatus
  | pending | resolved
deriving DecidableEq, Repr

/-- A ReviewEntry: script id, flagged reasons, original automated score,
optional manual override score, reviewer notes, resolution status. -/
structure ReviewEntry where
  script_id : String
  reasons : List String
  original_score : ℚ
  manual_score : Option ℚ
  reviewer_notes : String
  status : ReviewStatus
deriving DecidableEq, Repr

/-- The per-script result the triage engine inspects after the verification
stage: the three pipeline confidences, the final score, the scheme's passing
marks, and whether an unrecoverable processing error occurred. -/
structure TriageInput where
  script_id : String
  ocr_confidence : ℚ
  evaluation_confidence : ℚ
  verification_confidence : ℚ
  final_score : ℚ
  passing_marks : ℚ
  processing_error : Bool
deriving DecidableEq, Repr

/-- Modelled from the spec: the Confidence Triage Engine's flagging rules
(spec §4.3; README "Confidence Thresholds"). The backend implementation is
absent from the snapshot. One reason per matched condition, all collected on
a single list. -/
def triageReasons (r : TriageInput) : List String :=
  (if r.ocr_confidence < 6/10 then ["OCR confidence below threshold"] else []) ++
  (if r.evaluation_confidence < 7/10 then ["evaluation confidence below threshold"] else []) ++
  (if r.verification_confidence < 8/10 then ["verification confidence below threshold"] else []) ++
  (if r.final_score < r.passing_marks then ["below passing marks"] else []) ++
  (if r.processing_error then ["unrecoverable processing error"] else [])

/-- Modelled from the spec: `evaluate(scriptResult) → ReviewEntry | none`
(spec §4.3). Produces one pending entry carrying every matched reason when
any flagging condition holds, and nothing otherwise. -/
def triageEvaluate (r : TriageInput) : Option ReviewEntry :=
  if triageReasons r = [] then none
  else
    some
      { script_id := r.script_id
        reasons := triageReasons r
        original_score := r.final_score
        manual_score := none
        reviewer_notes := ""
        status := .pending }

/-- Modelled from the spec: `resolve(reviewId, manualScore, notes)` (spec
§4.5), acting on the entry the id denotes. Resolving an already-resolved
entry fails; otherwise the manual score and notes are recorded and the entry
becomes resolved, the original score kept untouched. The backend endpoint
behind `evaluationsApi.submitManualReview` is absent from the snapshot. -/
def resolveReview (e : ReviewEntry) (manualScore : ℚ) (notes : String) :
    Except String ReviewEntry :=
  if e.status = .resolved then
    Except.error "Review entry already resolved"
  else
    Except.ok
      { e with manual_score := some manualScore, reviewer_notes := notes, status := .resolved }

/-- The stored entry after a `resolve` call: updated on success, unchanged
when the call fails. -/
def resolveStored (e : ReviewEntry) (manualScore : ℚ) (notes : String) : ReviewEntry :=
  match resolveReview e manualScore notes with
  | Except.ok e2 => e2
  | Except.error _ => e

/-- Per-file outcome of a batch dispatch: an inline terminal result (score or
pipeline error) on the synchronous path, or a task handle on the asynchronous
path. -/
inductive DispatchOutcome (R : Type)
  | inlineResult (result : Except String R)
  | taskHandle (task_id : String)
deriving Repr

/-- The batch-size threshold selecting the dispatch mode (spec §4.2 default;
README "Processing Modes": ≤ 5 real-time, > 5 queued). -/
def dispatchThreshold : Nat := 5

/-- Modelled from the spec: the Dispatch Scheduler's `dispatch(batch)` (spec
§4.2; README "Processing Modes"), over an abstract per-file pipeline. The
backend endpoint behind `scriptsApi.uploadBatch` is absent from the snapshot.
The mode is decided once per batch: at most `dispatchThreshold` files run
synchronously, each file yielding its own terminal result (a failure of one
pipeline run is recorded in that file's outcome only); larger batches yield
one task handle per accepted file. -/
def dispatch {R : Type} (pipeline : String → Except String R) (batch : List String) :
    List (String × DispatchOutcome R) :=
  if batch.length ≤ dispatchThreshold then
    batch.map (fun f => (f, DispatchOutcome.inlineResult (pipeline f)))
  else
    batch.map (fun f => (f, DispatchOutcome.taskHandle ("task-" ++ f)))

/-! ## Concrete inputs used by the counterexamples and witnesses -/

/-- An event on script s1 at timestamp 1: OCR done, progress 50. -/
def c1e1 : ProcessingUpdate :=
  { script_id := "s1", status := .processing, stage := "ocr_completed", progress := 50
    stage_description := "ocr", estimated_remaining_time := 20
    details := none, result := none, error := none, timestamp := 1 }

/-- A later event on script s1 at timestamp 2: evaluation done, progress 80. -/
def c1e2 : ProcessingUpdate :=
  { c1e1 with stage := "evaluation_completed", progress := 80, timestamp := 2 }

/-- A terminal event on script s2: completed at timestamp 10. -/
def c2done : ProcessingUpdate :=
  { script_id := "s2", status := .completed, stage := "completed", progress := 100
    stage_description := "done", estimated_remaining_time := 0
    details := none, result := none, error := none, timestamp := 10 }

/-- An event on script s2 arriving after the terminal one. -/
def c2late : ProcessingUpdate :=
  { c2done with status := .processing, stage := "ocr_completed", progress := 40, timestamp := 11 }

/-- A processing event on script s3 with progress 50. -/
def c3u1 : ProcessingUpdate :=
  { script_id := "s3", status := .processing, stage := "evaluation_completed", progress := 50
    stage_description := "eval", estimated_remaining_time := 25
    details := none, result := none, error := none, timestamp := 1 }

/-- A later processing event on script s3 with smaller progress 10. -/
def c3u2 : ProcessingUpdate :=
  { c3u1 with stage := "ocr_completed", progress := 10, timestamp := 2 }

/-- Subscriptions held before a disconnect: one session scope, one script scope. -/
def c4subs : ObserverSubs := { sessionSub := some "sess1", scriptSubs := ["scr1"] }

/-- A mounted, connected dashboard instance with one open socket. -/
def c8s0 : DashConn :=
  { mounted := true, isConnected := true, openSockets := 1, reconnectTimers := [] }

/-- OCR confidence 0.55, the other confidences 0.9, score 80 of 100 against
passing marks 40, no processing error. -/
def c5lowOcr : TriageInput :=
  { script_id := "s5a", ocr_confidence := 55/100, evaluation_confidence := 9/10
    verification_confidence := 9/10, final_score := 80, passing_marks := 40
    processing_error := false }

/-- All confidences at 0.9 (above every threshold), score 35 of 100 against
passing marks 40, no processing error. -/
def c5belowPass : TriageInput :=
  { script_id := "s5b", ocr_confidence := 9/10, evaluation_confidence := 9/10
    verification_confidence := 9/10, final_score := 35, passing_marks := 40
    processing_error := false }

/-- A pipeline in which exactly the file named b fails. -/
def c6pipe : String → Except String Nat :=
  fun f => if f = "b" then Except.error "pipeline failure" else Except.ok 1

/-- A batch of three files, below the dispatch threshold. -/
def c6b3 : List String := ["a", "b", "c"]

/-- A batch of seven files, above the dispatch threshold. -/
def c6b7 : List String := ["a", "b", "c", "d", "e", "f", "g"]

/-- A pending review entry for script s7 with automated score 62. -/
def c7e : ReviewEntry :=
  { script_id := "s7", reasons := ["below passing marks"], original_score := 62
    manual_score := none, reviewer_notes := "", status := .pending }

/-- A 500 response whose body fails to parse. -/
def c10r500 : HttpResponse := { status := 500, errorBody := none, body := "" }

/-- A 500 response whose parsed body carries a detail field. -/
def c10r500b : HttpResponse :=
  { status := 500, errorBody := some { detail := some "boom", message := none }, body := "" }

/-- A 401 response. -/
def c10r401 : HttpResponse :=
  { status := 401, errorBody := some { detail := some "expired", message := none }, body := "" }

/-- A 200 response with a payload. -/
def c10r200 : HttpResponse := { status := 200, errorBody := none, body := "payload" }

/-! ## Theorems -/

/-- Reading back the key just written into the dashboard map. -/
theorem mapGet_mapSet (m : ScriptMap) (k : String) (v : ScriptProcessingState) :
    mapGet (mapSet m k v) k = some v := by
  induction m with
  | nil => simp [mapSet, mapGet]
  | cons p rest ih =>
    by_cases h : p.1 = k
    · simp [mapSet, mapGet, h]
    · simp [mapSet, mapGet, h, ih]

/-- C1, counterexample: two events on the same script with
`c1e1.timestamp < c1e2.timestamp`; the arrival order e2-then-e1 does not
converge to the state produced by e2 alone — the stale event e1 overwrites
the stored state (its progress 50 replaces 80), so it is not discarded. -/
theorem c1_stale_event_applied :
    c1e1.script_id = c1e2.script_id ∧
    c1e1.timestamp < c1e2.timestamp ∧
    updateScriptProcessing (updateScriptProcessing [] c1e2) c1e1 ≠
      updateScriptProcessing [] c1e2 ∧
    (mapGet (updateScriptProcessing (updateScriptProcessing [] c1e2) c1e1) "s1").map
      (fun s => s.progress) = some 50 ∧
    (mapGet (updateScriptProcessing [] c1e2) "s1").map (fun s => s.progress) = some 80 := by
  refine ⟨rfl, by decide, by decide, by decide, by decide⟩

/-- C1, amended: `updateScriptProcessing` performs no timestamp comparison;
every event is applied unconditionally, the stored entry being rebuilt from
the event's fields. The converged state is therefore that of the
last-arriving event (last writer wins), not of the larger-timestamp event. -/
theorem c1_update_last_writer_wins (m : ScriptMap) (u : ProcessingUpdate) :
    mapGet (updateScriptProcessing m u) u.script_id =
      some (updatedState (mapGet m u.script_id) u) ∧
    (updatedState (mapGet m u.script_id) u).current_stage = u.stage ∧
    (updatedState (mapGet m u.script_id) u).status = u.status.toScr ∧
    (updatedState (mapGet m u.script_id) u).progress = u.progress := by
  exact ⟨mapGet_mapSet m u.script_id _, rfl, rfl, rfl⟩

/-- C2, counterexample: script s2 reaches the terminal status completed, yet
a further event changes its stored stage, status and progress. -/
theorem c2_terminal_not_frozen :
    (mapGet (updateScriptProcessing [] c2done) "s2").map (fun s => s.status) =
      some ScrStatus.completed ∧
    updateScriptProcessing (updateScriptProcessing [] c2done) c2late ≠
      updateScriptProcessing [] c2done ∧
    (mapGet (updateScriptProcessing (updateScriptProcessing [] c2done) c2late) "s2").map
      (fun s => s.status) = some ScrStatus.processing ∧
    (mapGet (updateScriptProcessing (updateScriptProcessing [] c2done) c2late) "s2").map
      (fun s => s.progress) = some 40 := by
  refine ⟨by decide, by decide, by decide, by decide⟩

/-- C2, amended: the handler has no terminal-status guard — an update applied
to a script whose stored status is terminal (completed or failed) still
overwrites the stored stage, status and progress with the update's values. -/
theorem c2_terminal_overwritten (s : ScriptProcessingState) (u : ProcessingUpdate)
    (_hterm : s.status = ScrStatus.completed ∨ s.status = ScrStatus.failed) :
    (updatedState (some s) u).status = u.status.toScr ∧
    (updatedState (some s) u).current_stage = u.stage ∧
    (updatedState (some s) u).progress = u.progress :=
  ⟨rfl, rfl, rfl⟩

/-- C2, witness for the amended theorem at the completed state of script s2
and the late event c2late. -/
theorem c2_terminal_overwritten_witness :
    ((updatedState none c2done).status = ScrStatus.completed ∨
      (updatedState none c2done).status = ScrStatus.failed) ∧
    ((updatedState (some (updatedState none c2done)) c2late).status = c2late.status.toScr ∧
      (updatedState (some (updatedState none c2done)) c2late).current_stage = c2late.stage ∧
      (updatedState (some (updatedState none c2done)) c2late).progress = c2late.progress) :=
  ⟨Or.inl (by decide), c2_terminal_overwritten (updatedState none c2done) c2late (Or.inl (by decide))⟩

/-- C3, counterexample: both events carry status processing, yet the second
applied update lowers the stored progress from 50 to 10. -/
theorem c3_progress_decreases :
    (mapGet (updateScriptProcessing [] c3u1) "s3").map (fun s => s.progress) = some 50 ∧
    (mapGet (updateScriptProcessing [] c3u1) "s3").map (fun s => s.status) =
      some ScrStatus.processing ∧
    (mapGet (updateScriptProcessing (updateScriptProcessing [] c3u1) c3u2) "s3").map
      (fun s => s.progress) = some 10 ∧
    (mapGet (updateScriptProcessing (updateScriptProcessing [] c3u1) c3u2) "s3").map
      (fun s => s.status) = some ScrStatus.processing ∧
    (10 : Int) < 50 := by
  refine ⟨by decide, by decide, by decide, by decide, by decide⟩

/-- C3, amended: while status = processing the stored progress after an
applied update equals the update's progress field, with no comparison against
the previously stored progress — so it can decrease. -/
theorem c3_progress_from_update (s : ScriptProcessingState) (u : ProcessingUpdate)
    (hp : u.status = UpdStatus.processing) :
    (updatedState (some s) u).progress = u.progress ∧
    (updatedState (some s) u).status = ScrStatus.processing := by
  refine ⟨rfl, ?_⟩
  show u.status.toScr = ScrStatus.processing
  rw [hp]
  rfl

/-- C3, witness for the amended theorem: the second event of the
counterexample applied over the first's stored state. -/
theorem c3_progress_from_update_witness :
    c3u2.status = UpdStatus.processing ∧
    ((updatedState (some (updatedState none c3u1)) c3u2).progress = c3u2.progress ∧
      (updatedState (some (updatedState none c3u1)) c3u2).status = ScrStatus.processing) :=
  ⟨rfl, c3_progress_from_update (updatedState none c3u1) c3u2 rfl⟩

/-- C4, counterexample: an observer holding a session-scope subscription and a
script-scope subscription before the disconnect re-issues only the
session-scope one on reconnect; the script-scope subscription is not
re-issued (and the component performs no snapshot pull at all — its outgoing
vocabulary `WsMsg` has no such request). -/
theorem c4_script_sub_not_reissued :
    c4subs.scriptSubs = ["scr1"] ∧
    reconnectMessages c4subs = [WsMsg.subscribeSession "sess1"] ∧
    WsMsg.subscribeScript "scr1" ∉ reconnectMessages c4subs := by
  refine ⟨rfl, by decide, by decide⟩

/-- C4, amended: on reconnect the observer re-issues only the session-scope
subscription (exactly when the `sessionId` prop is set); no script-scope
subscription is ever re-issued and no snapshot pull is made, so a
reconnecting observer of an already-completed script is not reconciled by
pull and must wait for a push event. -/
theorem c4_reconnect_session_only (subs : ObserverSubs) :
    (∀ scr : String, WsMsg.subscribeScript scr ∉ reconnectMessages subs) ∧
    (∀ sid : String, subs.sessionSub = some sid →
      reconnectMessages subs = [WsMsg.subscribeSession sid]) ∧
    (subs.sessionSub = none → reconnectMessages subs = []) := by
  refine ⟨?_, ?_, ?_⟩
  · intro scr
    cases h : subs.sessionSub <;> simp [reconnectMessages, onopenMessages, h]
  · intro sid h
    simp [reconnectMessages, onopenMessages, h]
  · intro h
    simp [reconnectMessages, onopenMessages, h]

/-- C4, witness for the amended theorem at the counterexample's
subscriptions. -/
theorem c4_reconnect_session_only_witness :
    WsMsg.subscribeScript "scr1" ∉ reconnectMessages c4subs ∧
    c4subs.sessionSub = some "sess1" ∧
    reconnectMessages c4subs = [WsMsg.subscribeSession "sess1"] :=
  ⟨(c4_reconnect_session_only c4subs).1 "scr1", rfl,
    (c4_reconnect_session_only c4subs).2.1 "sess1" rfl⟩

/-- C8, counterexample: the observing context is destroyed (the effect
cleanup runs, closing the socket), the close handler then fires — and still
schedules a 3000 ms reconnect timer, which on firing opens a fresh socket
while the component is unmounted. So reconnect attempts do occur after the
observing context is destroyed. -/
theorem c8_reconnect_after_destroy :
    (effectCleanup c8s0).mounted = false ∧
    (oncloseHandler (effectCleanup c8s0)).reconnectTimers = [3000] ∧
    (oncloseHandler (effectCleanup c8s0)).mounted = false ∧
    (timerFire (oncloseHandler (effectCleanup c8s0))).openSockets = 1 ∧
    (timerFire (oncloseHandler (effectCleanup c8s0))).mounted = false := by
  refine ⟨rfl, rfl, rfl, rfl, rfl⟩

/-- C8, amended: every connection close schedules exactly one reconnect
attempt after the fixed 3000 ms delay, with unbounded attempts — but the
scheduling is unconditional (it does not consult whether the component is
mounted), and the unmount cleanup cancels no pending reconnect timer, so the
no-reconnect-after-destroy part of the policy does not hold. -/
theorem c8_onclose_schedules_unconditionally (s : DashConn) :
    (oncloseHandler s).reconnectTimers = s.reconnectTimers ++ [reconnectDelayMs] ∧
    reconnectDelayMs = 3000 ∧
    (oncloseHandler s).mounted = s.mounted ∧
    (oncloseHandler s).isConnected = false ∧
    (effectCleanup s).reconnectTimers = s.reconnectTimers :=
  ⟨rfl, rfl, rfl, rfl, rfl⟩

/-- C5: a review entry is produced exactly when one of the five flagging
conditions holds; OCR confidence 0.55 with the other confidences at 0.9 and
a passing score yields a single entry whose one reason is the OCR one; and
score 35 against passing marks 40 with all confidences above the thresholds
yields a single entry whose one reason is below passing marks. -/
theorem c5_triage_characterisation :
    (∀ r : TriageInput,
      (triageEvaluate r).isSome = true ↔
        (r.ocr_confidence < 6/10 ∨ r.evaluation_confidence < 7/10 ∨
         r.verification_confidence < 8/10 ∨ r.final_score < r.passing_marks ∨
         r.processing_error = true)) ∧
    (triageEvaluate c5lowOcr).map (fun e => e.reasons) =
      some ["OCR confidence below threshold"] ∧
    (triageEvaluate c5belowPass).map (fun e => e.reasons) = some ["below passing marks"] := by
  refine ⟨?_, ?_, ?_⟩
  · intro r
    by_cases h1 : r.ocr_confidence < 6/10 <;>
    by_cases h2 : r.evaluation_confidence < 7/10 <;>
    by_cases h3 : r.verification_confidence < 8/10 <;>
    by_cases h4 : r.final_score < r.passing_marks <;>
    by_cases h5 : r.processing_error = true <;>
    simp [triageEvaluate, triageReasons, h1, h2, h3, h4, h5]
  · norm_num [triageEvaluate, triageReasons, c5lowOcr]
  · norm_num [triageEvaluate, triageReasons, c5belowPass]

/-- C6: dispatch yields one outcome per file; batches of at most
`dispatchThreshold = 5` files run the pipeline inline, each file carrying its
own terminal result (so one file's failure is recorded in that file's
outcome only); larger batches yield exactly one task handle per file. -/
theorem c6_dispatch_modes {R : Type} (pipeline : String → Except String R)
    (batch : List String) :
    (dispatch pipeline batch).length = batch.length ∧
    dispatchThreshold = 5 ∧
    (batch.length ≤ dispatchThreshold →
      dispatch pipeline batch =
        batch.map (fun f => (f, DispatchOutcome.inlineResult (pipeline f)))) ∧
    (dispatchThreshold < batch.length →
      dispatch pipeline batch =
        batch.map (fun f => (f, DispatchOutcome.taskHandle ("task-" ++ f)))) := by
  refine ⟨?_, rfl, ?_, ?_⟩
  · by_cases h : batch.length ≤ dispatchThreshold <;> simp [dispatch, h]
  · intro h
    simp [dispatch, h]
  · intro h
    have h2 : ¬ batch.length ≤ dispatchThreshold := Nat.not_le.mpr h
    simp [dispatch, h2]

/-- C6, witness: a three-file batch in which file b's pipeline fails runs
inline with per-file outcomes (siblings a and c still succeed), while a
seven-file batch yields one task handle per file. -/
theorem c6_dispatch_modes_witness :
    c6b3.length ≤ dispatchThreshold ∧
    dispatch c6pipe c6b3 = c6b3.map (fun f => (f, DispatchOutcome.inlineResult (c6pipe f))) ∧
    dispatch c6pipe c6b3 =
      [("a", DispatchOutcome.inlineResult (Except.ok 1)),
       ("b", DispatchOutcome.inlineResult (Except.error "pipeline failure")),
       ("c", DispatchOutcome.inlineResult (Except.ok 1))] ∧
    dispatchThreshold < c6b7.length ∧
    dispatch c6pipe c6b7 = c6b7.map (fun f => (f, DispatchOutcome.taskHandle ("task-" ++ f))) := by
  refine ⟨by decide, (c6_dispatch_modes c6pipe c6b3).2.2.1 (by decide), ?_, by decide,
    (c6_dispatch_modes c6pipe c6b7).2.2.2 (by decide)⟩
  rfl

/-- C7: resolving a pending entry records the manual score, notes and the
resolved status while keeping the original automated score; a second resolve
call on the now-resolved entry fails and leaves the stored entry — hence its
manual score, the first call's value — unchanged. -/
theorem c7_resolve_first_wins (e : ReviewEntry) (m1 m2 : ℚ) (n1 n2 : String)
    (hp : e.status = ReviewStatus.pending) :
    resolveReview (resolveStored e m1 n1) m2 n2 =
      Except.error "Review entry already resolved" ∧
    resolveStored (resolveStored e m1 n1) m2 n2 = resolveStored e m1 n1 ∧
    (resolveStored e m1 n1).manual_score = some m1 ∧
    (resolveStored e m1 n1).original_score = e.original_score ∧
    (resolveStored e m1 n1).status = ReviewStatus.resolved := by
  have hne : ¬ e.status = ReviewStatus.resolved := by simp [hp]
  have h1 : resolveStored e m1 n1 =
      { e with manual_score := some m1, reviewer_notes := n1, status := .resolved } := by
    simp [resolveStored, resolveReview, hne]
  rw [h1]
  refine ⟨?_, ?_, rfl, rfl, rfl⟩
  · simp [resolveReview]
  · simp [resolveStored, resolveReview]

/-- C7, witness: the pending entry c7e resolved with score 42, then resolved
again with score 50: the second call errors and the stored manual score
stays 42. -/
theorem c7_resolve_first_wins_witness :
    c7e.status = ReviewStatus.pending ∧
    (resolveReview (resolveStored c7e 42 "first") 50 "second" =
      Except.error "Review entry already resolved" ∧
    resolveStored (resolveStored c7e 42 "first") 50 "second" = resolveStored c7e 42 "first" ∧
    (resolveStored c7e 42 "first").manual_score = some (42 : ℚ) ∧
    (resolveStored c7e 42 "first").original_score = c7e.original_score ∧
    (resolveStored c7e 42 "first").status = ReviewStatus.resolved) :=
  ⟨rfl, c7_resolve_first_wins c7e 42 50 "first" "second" rfl⟩

/-- Membership characterisation of the `handleFileSelect` filter predicate. -/
theorem uploadFileValid_iff (f : UploadFile) :
    uploadFileValid f = true ↔
      (f.mimeType.startsWith "image/" = true ∧ f.size ≤ 10 * 1024 * 1024) := by
  unfold uploadFileValid
  by_cases h1 : f.mimeType.startsWith "image/" = true
  · by_cases h2 : f.size > 10 * 1024 * 1024
    · simp [h1, h2]
    · simp [h1, h2]
      omega
  · simp [h1]

/-- C9: a null selection is a no-op; otherwise the accepted batch is the
independent per-file filter of the selection — a file is kept exactly when
its MIME type starts with image/ and its size is at most 10 MB, so each
rejection leaves the sibling files in place. -/
theorem c9_upload_validation (fs : List UploadFile) (f : UploadFile) :
    handleFileSelect (some fs) = some (fs.filter uploadFileValid) ∧
    handleFileSelect none = none ∧
    (f ∈ fs.filter uploadFileValid ↔
      f ∈ fs ∧ f.mimeType.startsWith "image/" = true ∧ f.size ≤ 10 * 1024 * 1024) := by
  refine ⟨rfl, rfl, ?_⟩
  rw [List.mem_filter, uploadFileValid_iff]

/-- C10, counterexample: a 500 response whose body fails to parse makes the
handler throw the literal Network error — a message that is neither the
response's detail nor its message nor the API request failed fallback the
claim allows (the token is indeed kept). -/
theorem c10_network_error_branch :
    c10r500.errorBody = none ∧
    handleResponse (some "tok") c10r500 = (some "tok", Except.error "Network error") ∧
    "Network error" ≠ "API request failed" ∧
    "Network error" ≠ "Authentication failed. Please login again." := by
  refine ⟨rfl, rfl, by decide, by decide⟩

/-- C10, amended: 401 removes the token and throws the authentication
message; any other non-ok response keeps the token and throws the parsed
body's detail, else its message, else the API request failed fallback —
except that a body that fails to parse throws the literal Network error; an
ok response returns the body with the token unchanged. -/
theorem c10_handle_response_cases (token : Option String) (r : HttpResponse) :
    (r.status = 401 →
      handleResponse token r =
        (none, Except.error "Authentication failed. Please login again.")) ∧
    (r.ok = false → r.status ≠ 401 → (handleResponse token r).1 = token) ∧
    (r.ok = false → r.status ≠ 401 → r.errorBody = none →
      (handleResponse token r).2 = Except.error "Network error") ∧
    (∀ eb : ErrBody, r.ok = false → r.status ≠ 401 → r.errorBody = some eb →
      (handleResponse token r).2 =
        Except.error
          ((jsOrStr eb.detail (jsOrStr eb.message (some "API request failed"))).getD
            "API request failed")) ∧
    (r.ok = true → handleResponse token r = (token, Except.ok r.body)) := by
  refine ⟨?_, ?_, ?_, ?_, ?_⟩
  · intro h
    have hok : r.ok = false := by simp [HttpResponse.ok, h]
    simp [handleResponse, hok, h]
  · intro hok hne
    simp [handleResponse, hok, hne]
  · intro hok hne hb
    simp [handleResponse, hok, hne, hb, jsOrStr]
  · intro eb hok hne hb
    simp [handleResponse, hok, hne, hb]
  · intro hok
    simp [handleResponse, hok]

/-- C10, witness: the three branches exercised at the concrete 401, 500 and
200 responses. -/
theorem c10_handle_response_cases_witness :
    c10r401.status = 401 ∧
    handleResponse (some "t") c10r401 =
      (none, Except.error "Authentication failed. Please login again.") ∧
    (handleResponse (some "t") c10r500b).1 = some "t" ∧
    (handleResponse (some "t") c10r500b).2 =
      Except.error
        ((jsOrStr (some "boom") (jsOrStr none (some "API request failed"))).getD
          "API request failed") ∧
    handleResponse (some "t") c10r200 = (some "t", Except.ok "payload") :=
  ⟨rfl,
    (c10_handle_response_cases (some "t") c10r401).1 rfl,
    (c10_handle_response_cases (some "t") c10r500b).2.1 rfl (by decide),
    (c10_handle_response_cases (some "t") c10r500b).2.2.2.1
      { detail := some "boom", message := none } rfl (by decide) rfl,
    (c10_handle_response_cases (some "t") c10r200).2.2.2.2 rfl⟩

end AnswerSheet
